import Mathlib

/-!
Verification development for the SuperStore KPI dashboard (`app.py`).

The script is a four-stage pipeline: load an Excel table, narrow it with
sidebar filters (region, state, category, sub-category, date range),
aggregate the filtered rows (KPI totals; monthly / product / category /
segment group-bys with a derived margin-rate column), and format the
resulting scalars for display.

Embedding conventions:
* a pandas `DataFrame` of transactions is a `List Record`;
* numeric measure columns (`Sales`, `Quantity`, `Profit`) are exact
  rationals (`Rat`), standing in for the floats of the source;
* a `datetime64` order date is its day count since 1970-01-01 (an `Int`;
  pandas datetimes are totally ordered integers internally), and
  `.dt.to_period('M')` is calendar month extraction from that day count;
* Streamlit widgets only supply values; each widget's current selection is
  a plain argument of the corresponding function;
* a Python exception that escapes the script is `Except.error` with the
  exception's message.
-/

/-- One row of `Sample - Superstore.xlsx` after `load_data` has parsed the
`Order Date` column (`orderDate` is the day count since 1970-01-01). -/
structure Record where
  orderId : String
  customerName : String
  productName : String
  region : String
  state : String
  category : String
  subCategory : String
  segment : String
  orderDate : Int
  sales : Rat
  quantity : Rat
  profit : Rat
deriving Repr, DecidableEq

/-- Model of `series.sum()` over one numeric column of a frame (0 on an empty frame,
as in pandas). -/
def sumBy (f : Record → Rat) (df : List Record) : Rat :=
  df.foldl (fun a r => a + f r) 0

/-! ### Dataset Loader (`load_data`, app.py lines 13-20)

`load_data` calls `pd.read_excel("Sample - Superstore.xlsx", ...)` with no
`try`/`except`: a missing or unreadable source raises (FileNotFoundError)
and the exception escapes `load_data`, aborting the script run. Only the
success path returns a frame (with `Order Date` coerced to datetime). -/

/-- The state of the Excel source the script reads at start-up. -/
inductive SourceFile where
  | missing
  | present (rows : List Record)
deriving Repr, DecidableEq

/-- Function `load_data` (app.py lines 13-20): `pd.read_excel` on a missing path
raises FileNotFoundError, which nothing in the function catches. -/
def load_data : SourceFile → Except String (List Record)
  | SourceFile.missing =>
      Except.error "FileNotFoundError: Sample - Superstore.xlsx"
  | SourceFile.present rows => Except.ok rows

/-! ### Filter Pipeline (app.py lines 38-101) -/

/-- app.py lines 43-46: `df_original[df_original["Region"] == selected_region]`
unless the "All" sentinel is selected. -/
def filterRegion (sel : String) (df : List Record) : List Record :=
  if sel ≠ "All" then df.filter (fun r => r.region == sel) else df

/-- app.py lines 53-56: the state filter. -/
def filterState (sel : String) (df : List Record) : List Record :=
  if sel ≠ "All" then df.filter (fun r => r.state == sel) else df

/-- app.py lines 63-66: the category filter. -/
def filterCategory (sel : String) (df : List Record) : List Record :=
  if sel ≠ "All" then df.filter (fun r => r.category == sel) else df

/-- app.py lines 73-75: the sub-category filter (`df_filtered_category.copy()`
followed by the conditional row selection; `.copy()` is the identity on the
row set). -/
def filterSubcat (sel : String) (df : List Record) : List Record :=
  if sel ≠ "All" then df.filter (fun r => r.subCategory == sel) else df

/-- app.py lines 98-101: the date-range mask
`(df["Order Date"] >= from) & (df["Order Date"] <= to)` — inclusive on both
ends, applied with the bounds exactly as supplied. -/
def applyDateFilter (fromDate toDate : Int) (df : List Record) : List Record :=
  df.filter (fun r => decide (fromDate ≤ r.orderDate) && decide (r.orderDate ≤ toDate))

/-- app.py lines 94-95: `if from_date > to_date: st.sidebar.error(...)` —
the validation warning shown for an inverted date range (the bounds are
still used as given afterwards). -/
def dateRangeWarning (fromDate toDate : Int) : Bool :=
  decide (toDate < fromDate)

/-- app.py line 83: `df["Order Date"].min()`, the default From-date
(the `[]` case never feeds the date mask with a nonempty frame). -/
def minOrderDate : List Record → Int
  | [] => 0
  | r :: rs => rs.foldl (fun a x => min a x.orderDate) r.orderDate

/-- app.py line 84: `df["Order Date"].max()`, the default To-date. -/
def maxOrderDate : List Record → Int
  | [] => 0
  | r :: rs => rs.foldl (fun a x => max a x.orderDate) r.orderDate

/-- The whole sidebar filter chain (app.py lines 43-101): region, then
state, then category, then sub-category, then the date-range mask. -/
def filterPipeline (selRegion selState selCategory selSubcat : String)
    (fromDate toDate : Int) (df : List Record) : List Record :=
  applyDateFilter fromDate toDate
    (filterSubcat selSubcat
      (filterCategory selCategory
        (filterState selState
          (filterRegion selRegion df))))

/-- The region predicate as a row test: sentinel "All" accepts everything,
otherwise equality with the selection. -/
def regionTest (sel : String) (r : Record) : Bool :=
  sel == "All" || r.region == sel

/-- The state predicate as a row test. -/
def stateTest (sel : String) (r : Record) : Bool :=
  sel == "All" || r.state == sel

/-- The category predicate as a row test. -/
def categoryTest (sel : String) (r : Record) : Bool :=
  sel == "All" || r.category == sel

/-- The sub-category predicate as a row test. -/
def subcatTest (sel : String) (r : Record) : Bool :=
  sel == "All" || r.subCategory == sel

/-- The date-range predicate as a row test. -/
def dateTest (fromDate toDate : Int) (r : Record) : Bool :=
  decide (fromDate ≤ r.orderDate) && decide (r.orderDate ≤ toDate)

/-- The five sidebar predicates in the order the script applies them. -/
def pipelinePreds (selRegion selState selCategory selSubcat : String)
    (fromDate toDate : Int) : List (Record → Bool) :=
  [regionTest selRegion, stateTest selState, categoryTest selCategory,
   subcatTest selSubcat, dateTest fromDate toDate]

/-- Apply a list of row predicates one after the other, each narrowing the
frame left by the previous one. -/
def applyPreds (ps : List (Record → Bool)) (df : List Record) : List Record :=
  ps.foldl (fun d p => d.filter p) df

/-! ### KPI Formatter (`format_number`, app.py lines 153-159) and the
fixed-point rendering of Python's `:.Nf` format specifier. -/

/-- Round-to-nearest with ties to even, the rounding of Python's float
formatting. -/
def roundHalfEven (q : Rat) : Int :=
  let f := Rat.floor q
  let r := q - (f : Rat)
  if r < 1/2 then f
  else if 1/2 < r then f + 1
  else if f % 2 = 0 then f else f + 1

/-- Left-pad a digit string with zeros to `d` characters. -/
def padZeros (s : String) (d : Nat) : String :=
  if d ≤ s.length then s else String.mk (List.replicate (d - s.length) '0') ++ s

/-- Format `:.Nf` on a nonnegative value: round to `d` decimals, print integer
part, a point, and the zero-padded fraction digits. -/
def fmtFixedNonneg (q : Rat) (d : Nat) : String :=
  let n : Nat := (roundHalfEven (q * (10 : Rat) ^ d)).toNat
  Nat.repr (n / 10 ^ d) ++ "." ++ padZeros (Nat.repr (n % 10 ^ d)) d

/-- Python's `f"{q:.df}"`: sign, then the fixed-point rendering of the
absolute value (round-half-even is symmetric, so this matches rounding the
signed value). -/
def fmtFixed (q : Rat) (d : Nat) : String :=
  if q < 0 then "-" ++ fmtFixedNonneg (-q) d else fmtFixedNonneg q d

/-- Function `format_number` (app.py lines 153-159): `$X.XXM` for values at least
one million, `$X.XK` for values at least one thousand, `$X.XX` otherwise. -/
def format_number (num : Rat) : String :=
  if 1000000 ≤ num then "$" ++ fmtFixed (num / 1000000) 2 ++ "M"
  else if 1000 ≤ num then "$" ++ fmtFixed (num / 1000) 1 ++ "K"
  else "$" ++ fmtFixed num 2

/-! ### KPI Snapshot (app.py lines 161-171) -/

/-- app.py lines 162-168: the Sales KPI string. -/
def total_sales (df : List Record) : String :=
  if df.isEmpty then format_number 0 else format_number (sumBy Record.sales df)

/-- app.py lines 164 and 169: the Quantity KPI string — on a nonempty frame
always `sum/1000` to one decimal with a literal `K` suffix
(`f"{df['Quantity'].sum()/1000:.1f}K"`), never `format_number`. -/
def total_quantity (df : List Record) : String :=
  if df.isEmpty then "0"
  else fmtFixed (sumBy Record.quantity df / 1000) 1 ++ "K"

/-- app.py lines 165 and 170: the Profit KPI string. -/
def total_profit (df : List Record) : String :=
  if df.isEmpty then format_number 0 else format_number (sumBy Record.profit df)

/-- app.py lines 166 and 171: the Margin Rate KPI string; on a nonempty
frame the ratio is 0 when the sales sum is 0. -/
def margin_rate (df : List Record) : String :=
  if df.isEmpty then "0.00%"
  else
    fmtFixed
      (if sumBy Record.sales df ≠ 0
        then sumBy Record.profit df / sumBy Record.sales df * 100 else 0) 2
      ++ "%"

/-- The four KPI tiles (sales, quantity, profit, margin rate). -/
def kpiSnapshot (df : List Record) : String × String × String × String :=
  (total_sales df, total_quantity df, total_profit df, margin_rate df)

/-- app.py lines 222-223: `if df.empty: st.warning("No data available for
the selected filters and date range.")`. -/
def no_data_warning (df : List Record) : Bool :=
  df.isEmpty

/-! ### Aggregation Engine (app.py lines 229-252, 308-315, 353-360) -/

/-- Calendar date (year, month, day) of a day count since 1970-01-01 in the
proleptic Gregorian calendar (the standard era-based conversion used by
date libraries). -/
def civilFromDays (z0 : Int) : Int × Int × Int :=
  let z := z0 + 719468
  let era := Int.fdiv z 146097
  let doe := z - era * 146097
  let yoe :=
    Int.fdiv (doe - Int.fdiv doe 1460 + Int.fdiv doe 36524 - Int.fdiv doe 146096) 365
  let y := yoe + era * 400
  let doy := doe - (365 * yoe + Int.fdiv yoe 4 - Int.fdiv yoe 100)
  let mp := Int.fdiv (5 * doy + 2) 153
  let d := doy - Int.fdiv (153 * mp + 2) 5 + 1
  let m := mp + (if mp < 10 then 3 else -9)
  (if m ≤ 2 then y + 1 else y, m, d)

/-- Zero-pad a month number to two digits. -/
def pad2 (m : Int) : String :=
  if m < 10 then "0" ++ Int.repr m else Int.repr m

/-- app.py lines 231-232: `df['Order Date'].dt.to_period('M')` converted to
string — the `"YYYY-MM"` month key of a row. -/
def monthYearStr (t : Int) : String :=
  let c := civilFromDays t
  Int.repr c.1 ++ "-" ++ pad2 c.2.1

/-- Key-extraction order of a group-by: each distinct key once, in first
appearance order.  (pandas additionally sorts group keys ascending; no
claim below depends on the order of the group rows, only on which rows
occur.) -/
def uniqueKeys : List String → List String
  | [] => []
  | k :: ks => k :: (uniqueKeys ks).filter (fun x => x != k)

/-- Model of the `df.groupby(key).agg(...).reset_index()` calls, summing
the Sales, Quantity and Profit columns: one `(key, sales, quantity,
profit)` tuple per distinct key. -/
def groupSums (key : Record → String) (df : List Record) :
    List (String × Rat × Rat × Rat) :=
  (uniqueKeys (df.map key)).map (fun k =>
    let grp := df.filter (fun r => key r == k)
    (k, sumBy Record.sales grp, sumBy Record.quantity grp, sumBy Record.profit grp))

/-- One aggregate row after the derived `"Margin Rate"` column has been
assigned. -/
structure AggRow where
  key : String
  sales : Rat
  quantity : Rat
  profit : Rat
  marginRate : Rat
deriving Repr, DecidableEq

/-- Model of `series.replace(0, 1)` applied to a sales sum — the script's
zero-denominator guard. -/
def replaceZeroOne (s : Rat) : Rat :=
  if s = 0 then 1 else s

/-- app.py lines 235-240: `monthly_grouped`, with
`Margin Rate = Profit / Sales.replace(0, 1)`. -/
def monthly_grouped (df : List Record) : List AggRow :=
  (groupSums (fun r => monthYearStr r.orderDate) df).map (fun g =>
    ⟨g.1, g.2.1, g.2.2.1, g.2.2.2, g.2.2.2 / replaceZeroOne g.2.1⟩)

/-- app.py lines 243-248: `product_grouped`, with
`Margin Rate = Profit / Sales.replace(0, 1)`. -/
def product_grouped (df : List Record) : List AggRow :=
  (groupSums Record.productName df).map (fun g =>
    ⟨g.1, g.2.1, g.2.2.1, g.2.2.2, g.2.2.2 / replaceZeroOne g.2.1⟩)

/-- app.py lines 308-315: `category_grouped`, with
`Margin Rate = (Profit / Sales.replace(0, 1)) * 100`. -/
def category_grouped (df : List Record) : List AggRow :=
  (groupSums Record.category df).map (fun g =>
    ⟨g.1, g.2.1, g.2.2.1, g.2.2.2, g.2.2.2 / replaceZeroOne g.2.1 * 100⟩)

/-- app.py lines 353-360: `segment_grouped`, with
`Margin Rate = (Profit / Sales.replace(0, 1)) * 100`. -/
def segment_grouped (df : List Record) : List AggRow :=
  (groupSums Record.segment df).map (fun g =>
    ⟨g.1, g.2.1, g.2.2.1, g.2.2.2, g.2.2.2 / replaceZeroOne g.2.1 * 100⟩)

/-- The KPI the radio button at app.py line 227 can select. -/
inductive KPI where
  | sales
  | quantity
  | profit
  | marginRate
deriving Repr, DecidableEq

/-- The column of an aggregate row a KPI selection names. -/
def kpiValue : KPI → AggRow → Rat
  | KPI.sales, g => g.sales
  | KPI.quantity, g => g.quantity
  | KPI.profit, g => g.profit
  | KPI.marginRate, g => g.marginRate

/-- Model of `sort_values(by=kpi, ascending=False)` on aggregate rows.  pandas'
default `kind="quicksort"` promises the descending order but fixes no
order among ties; an insertion sort is one concrete refinement of that
contract. -/
def sortByKpiDesc (k : KPI) (rows : List AggRow) : List AggRow :=
  List.insertionSort (fun a b => kpiValue k b ≤ kpiValue k a) rows

/-- app.py lines 251-252: sort `product_grouped` by the selected KPI,
descending, and keep the first ten rows. -/
def top_10 (k : KPI) (rows : List AggRow) : List AggRow :=
  (sortByKpiDesc k rows).take 10

/-- app.py line 227: `selected_kpi` is assigned inside
`else:` of `if df.empty:` — on an empty frame the name is never bound. -/
def selectedKpiOpt (choice : KPI) (df : List Record) : Option KPI :=
  if df.isEmpty then none else some choice

/-- app.py lines 229-252: the chart-preparation stage.  The two group-bys
and their margin columns are computed unconditionally; then line 251
evaluates `product_grouped.sort_values(by=selected_kpi, ...)`, which on an
empty frame raises `NameError` because `selected_kpi` was never assigned. -/
def chartStage (choice : KPI) (df : List Record) :
    Except String (List AggRow × List AggRow) :=
  let monthly := monthly_grouped df
  let products := product_grouped df
  match selectedKpiOpt choice df with
  | none => Except.error "NameError: name selected_kpi is not defined"
  | some k => Except.ok (monthly, top_10 k products)

/-! ### Concrete sample rows used by counterexamples and witnesses -/

/-- A transaction whose sales amount is 0 but whose profit is 5 (a fully
discounted line, say) — its one-row group has sales sum 0. -/
def r0 : Record :=
  { orderId := "CA-2014-100001", customerName := "Alice Smith",
    productName := "Acme Chair", region := "West", state := "California",
    category := "Furniture", subCategory := "Chairs", segment := "Consumer",
    orderDate := 16071, sales := 0, quantity := 1, profit := 5 }

/-- An ordinary western transaction (2014-02-14). -/
def rWest : Record :=
  { orderId := "CA-2014-100002", customerName := "Bob Jones",
    productName := "Stapler", region := "West", state := "California",
    category := "Office Supplies", subCategory := "Fasteners",
    segment := "Corporate", orderDate := 16115, sales := 100, quantity := 2,
    profit := 20 }

/-- An ordinary eastern transaction (2014-05-20). -/
def rEast : Record :=
  { orderId := "CA-2014-100003", customerName := "Carol King",
    productName := "Bookcase", region := "East", state := "New York",
    category := "Furniture", subCategory := "Bookcases",
    segment := "Home Office", orderDate := 16210, sales := 250, quantity := 3,
    profit := -40 }

/-- A transaction with quantity 5, to exercise the Quantity KPI rendering. -/
def rQty5 : Record :=
  { orderId := "CA-2014-100004", customerName := "Dan Wu",
    productName := "Lamp", region := "South", state := "Texas",
    category := "Furniture", subCategory := "Furnishings",
    segment := "Consumer", orderDate := 16300, sales := 60, quantity := 5,
    profit := 12 }

/-! ### Helper lemmas about the filter stages -/

theorem filterRegion_eq (sel : String) (df : List Record) :
    filterRegion sel df = df.filter (regionTest sel) := by
  by_cases h : sel = "All"
  · subst h
    simp only [filterRegion, ne_eq, not_true_eq_false, if_false]
    exact (List.filter_eq_self.mpr (fun r _ => by simp [regionTest])).symm
  · simp only [filterRegion, ne_eq, h, not_false_eq_true, if_true]
    exact List.filter_congr (fun r _ => by
      simp [regionTest, beq_eq_false_iff_ne.mpr h])

theorem filterState_eq (sel : String) (df : List Record) :
    filterState sel df = df.filter (stateTest sel) := by
  by_cases h : sel = "All"
  · subst h
    simp only [filterState, ne_eq, not_true_eq_false, if_false]
    exact (List.filter_eq_self.mpr (fun r _ => by simp [stateTest])).symm
  · simp only [filterState, ne_eq, h, not_false_eq_true, if_true]
    exact List.filter_congr (fun r _ => by
      simp [stateTest, beq_eq_false_iff_ne.mpr h])

theorem filterCategory_eq (sel : String) (df : List Record) :
    filterCategory sel df = df.filter (categoryTest sel) := by
  by_cases h : sel = "All"
  · subst h
    simp only [filterCategory, ne_eq, not_true_eq_false, if_false]
    exact (List.filter_eq_self.mpr (fun r _ => by simp [categoryTest])).symm
  · simp only [filterCategory, ne_eq, h, not_false_eq_true, if_true]
    exact List.filter_congr (fun r _ => by
      simp [categoryTest, beq_eq_false_iff_ne.mpr h])

theorem filterSubcat_eq (sel : String) (df : List Record) :
    filterSubcat sel df = df.filter (subcatTest sel) := by
  by_cases h : sel = "All"
  · subst h
    simp only [filterSubcat, ne_eq, not_true_eq_false, if_false]
    exact (List.filter_eq_self.mpr (fun r _ => by simp [subcatTest])).symm
  · simp only [filterSubcat, ne_eq, h, not_false_eq_true, if_true]
    exact List.filter_congr (fun r _ => by
      simp [subcatTest, beq_eq_false_iff_ne.mpr h])

theorem applyDateFilter_eq (f t : Int) (df : List Record) :
    applyDateFilter f t df = df.filter (dateTest f t) := rfl

theorem applyPreds_eq_filter (ps : List (Record → Bool)) (df : List Record) :
    applyPreds ps df = df.filter (fun r => ps.all (fun p => p r)) := by
  induction ps generalizing df with
  | nil => simp [applyPreds]
  | cons p ps ih =>
      have h1 : applyPreds (p :: ps) df = applyPreds ps (df.filter p) := rfl
      rw [h1, ih, List.filter_filter]
      exact List.filter_congr (fun r _ => by simp [Bool.and_comm])

theorem applyPreds_perm_eq {ps qs : List (Record → Bool)}
    (h : ps.Perm qs) (df : List Record) :
    applyPreds ps df = applyPreds qs df := by
  rw [applyPreds_eq_filter, applyPreds_eq_filter]
  refine List.filter_congr (fun r _ => ?_)
  have hiff : ps.all (fun p => p r) = true ↔ qs.all (fun p => p r) = true := by
    simp only [List.all_eq_true]
    exact ⟨fun H p hp => H p (h.mem_iff.mpr hp), fun H p hp => H p (h.mem_iff.mp hp)⟩
  cases hp : ps.all (fun p => p r) with
  | true => exact (hiff.mp hp).symm
  | false =>
      cases hq : qs.all (fun p => p r) with
      | true => exact absurd (hiff.mpr hq) (by simp [hp])
      | false => rfl

theorem filterPipeline_eq_applyPreds (sr ss sc ssc : String) (f t : Int)
    (df : List Record) :
    filterPipeline sr ss sc ssc f t df
      = applyPreds (pipelinePreds sr ss sc ssc f t) df := by
  simp [filterPipeline, applyPreds, pipelinePreds, applyDateFilter_eq,
    filterRegion_eq, filterState_eq, filterCategory_eq, filterSubcat_eq]

theorem filterPipeline_eq_filter (sr ss sc ssc : String) (f t : Int)
    (df : List Record) :
    filterPipeline sr ss sc ssc f t df
      = df.filter (fun r =>
          regionTest sr r && (stateTest ss r && (categoryTest sc r &&
            (subcatTest ssc r && dateTest f t r)))) := by
  rw [filterPipeline_eq_applyPreds, applyPreds_eq_filter]
  exact List.filter_congr (fun r _ => by simp [pipelinePreds])

theorem foldl_min_le_init (rs : List Record) (a : Int) :
    rs.foldl (fun b x => min b x.orderDate) a ≤ a := by
  induction rs generalizing a with
  | nil => simp
  | cons r rs ih =>
      exact le_trans (ih (min a r.orderDate)) (min_le_left _ _)

theorem foldl_min_le_mem (rs : List Record) (a : Int) (x : Record)
    (hx : x ∈ rs) :
    rs.foldl (fun b y => min b y.orderDate) a ≤ x.orderDate := by
  induction rs generalizing a with
  | nil => cases hx
  | cons r rs ih =>
      rw [List.mem_cons] at hx
      rcases hx with h | h
      · subst h
        exact le_trans (foldl_min_le_init rs _) (min_le_right _ _)
      · exact ih _ h

theorem minOrderDate_le (df : List Record) (r : Record) (hr : r ∈ df) :
    minOrderDate df ≤ r.orderDate := by
  cases df with
  | nil => cases hr
  | cons a rs =>
      rw [List.mem_cons] at hr
      rcases hr with h | h
      · subst h
        exact foldl_min_le_init rs r.orderDate
      · exact foldl_min_le_mem rs a.orderDate r h

theorem init_le_foldl_max (rs : List Record) (a : Int) :
    a ≤ rs.foldl (fun b x => max b x.orderDate) a := by
  induction rs generalizing a with
  | nil => simp
  | cons r rs ih =>
      exact le_trans (le_max_left _ _) (ih (max a r.orderDate))

theorem mem_le_foldl_max (rs : List Record) (a : Int) (x : Record)
    (hx : x ∈ rs) :
    x.orderDate ≤ rs.foldl (fun b y => max b y.orderDate) a := by
  induction rs generalizing a with
  | nil => cases hx
  | cons r rs ih =>
      rw [List.mem_cons] at hx
      rcases hx with h | h
      · subst h
        exact le_trans (le_max_right _ _) (init_le_foldl_max rs _)
      · exact ih _ h

theorem le_maxOrderDate (df : List Record) (r : Record) (hr : r ∈ df) :
    r.orderDate ≤ maxOrderDate df := by
  cases df with
  | nil => cases hr
  | cons a rs =>
      rw [List.mem_cons] at hr
      rcases hr with h | h
      · subst h
        exact init_le_foldl_max rs r.orderDate
      · exact mem_le_foldl_max rs a.orderDate r h

/-! ### Claim theorems -/

section ConcreteEvaluation

attribute [local semireducible] Rat.add Rat.mul Rat.inv Rat.sub Rat.ofScientific

/-- C1 (corrected): in every grouping the script computes the margin-rate
column as `Profit / Sales.replace(0, 1)` (times 100 for the category and
segment charts), so a group whose sales sum is 0 gets margin rate equal to
its profit sum (scaled), finite but not 0 whenever the profit sum is not 0. -/
theorem group_margin_zero_sales_C1 (df : List Record) (row : AggRow) :
    ((row ∈ monthly_grouped df ∨ row ∈ product_grouped df) →
        row.sales = 0 → row.marginRate = row.profit)
    ∧ ((row ∈ category_grouped df ∨ row ∈ segment_grouped df) →
        row.sales = 0 → row.marginRate = row.profit * 100) := by
  constructor
  · rintro (h | h) hs <;>
    · obtain ⟨g, hg, rfl⟩ := List.mem_map.mp h
      simp only [AggRow.sales.eq_1] at hs
      simp [replaceZeroOne, hs]
  · rintro (h | h) hs <;>
    · obtain ⟨g, hg, rfl⟩ := List.mem_map.mp h
      simp only [AggRow.sales.eq_1] at hs
      simp [replaceZeroOne, hs]

/-- C1 counterexample: the dataset `[r0]` has one monthly group, its sales
sum is 0 and its profit sum is 5, and the computed margin rate is 5 —
not 0, and exactly the group's profit sum — refuting the claimed
division-by-zero policy. -/
theorem group_margin_zero_sales_C1_counterexample :
    monthly_grouped [r0] = [⟨"2014-01", 0, 1, 5, 5⟩]
    ∧ ((5 : Rat) = 0 → False)
    ∧ (⟨"2014-01", 0, 1, 5, 5⟩ : AggRow).marginRate
        = (⟨"2014-01", 0, 1, 5, 5⟩ : AggRow).profit := by
  refine ⟨by decide, by decide, by decide⟩

/-- C1 witness: the amended theorem applied to the concrete group of `[r0]`. -/
theorem group_margin_zero_sales_C1_witness :
    ((⟨"2014-01", 0, 1, 5, 5⟩ : AggRow) ∈ monthly_grouped [r0]
        ∨ (⟨"2014-01", 0, 1, 5, 5⟩ : AggRow) ∈ product_grouped [r0])
    ∧ (⟨"2014-01", 0, 1, 5, 5⟩ : AggRow).sales = 0
    ∧ (⟨"2014-01", 0, 1, 5, 5⟩ : AggRow).marginRate
        = (⟨"2014-01", 0, 1, 5, 5⟩ : AggRow).profit :=
  ⟨Or.inl (by decide), by decide,
    (group_margin_zero_sales_C1 [r0] ⟨"2014-01", 0, 1, 5, 5⟩).1
      (Or.inl (by decide)) (by decide)⟩

/-- C2 (corrected): on a missing/unreadable source `load_data` propagates
the `pd.read_excel` exception (no `try`/`except` in app.py lines 13-20);
it does not return an empty Dataset with a recoverable warning. -/
theorem loader_missing_source_raises_C2 :
    load_data SourceFile.missing
      = Except.error "FileNotFoundError: Sample - Superstore.xlsx" := rfl

/-- C2 counterexample: the loader applied to a missing source does not
return the empty Dataset the claim promises. -/
theorem loader_missing_source_C2_counterexample :
    load_data SourceFile.missing ≠ Except.ok [] := by
  simp [load_data]

/-- C3 (code bug): on an empty filtered frame the script does produce the
all-zero KPI snapshot and the no-data warning, but the chart stage then
evaluates `product_grouped.sort_values(by=selected_kpi, ...)` (app.py line
251) with `selected_kpi` never assigned — the assignment at line 227 sits
inside the non-empty branch — raising NameError instead of completing. -/
theorem empty_dataset_kpis_but_chart_raises_C3 :
    kpiSnapshot [] = ("$0.00", "0", "$0.00", "0.00%")
    ∧ no_data_warning [] = true
    ∧ chartStage KPI.sales []
        = Except.error "NameError: name selected_kpi is not defined" := by
  refine ⟨by decide, by decide, rfl⟩

/-- C4 (confirmed): `format_number` is total on the embedded numeric
domain; inputs at least one million render as `$X.XXM`, inputs at least
one thousand render as `$X.XK`, everything smaller renders as `$X.XX` with
the sign preserved; and the four specified sample points evaluate as
claimed. -/
theorem format_number_total_C4 :
    format_number 999 = "$999.00"
    ∧ format_number 1500 = "$1.5K"
    ∧ format_number 2500000 = "$2.50M"
    ∧ format_number 0 = "$0.00"
    ∧ format_number (-1230) = "$-1230.00"
    ∧ (∀ q : Rat, 1000000 ≤ q →
        format_number q = "$" ++ fmtFixed (q / 1000000) 2 ++ "M")
    ∧ (∀ q : Rat, 1000 ≤ q → q < 1000000 →
        format_number q = "$" ++ fmtFixed (q / 1000) 1 ++ "K")
    ∧ (∀ q : Rat, q < 1000 → format_number q = "$" ++ fmtFixed q 2)
    ∧ (∀ q : Rat, q < 0 → fmtFixed q 2 = "-" ++ fmtFixedNonneg (-q) 2) := by
  refine ⟨by decide, by decide, by decide, by decide, by decide, ?_, ?_, ?_, ?_⟩
  · intro q h
    rw [format_number, if_pos h]
  · intro q h1 h2
    rw [format_number, if_neg (not_le.mpr h2), if_pos h1]
  · intro q h
    rw [format_number, if_neg (not_le.mpr (lt_trans h (by norm_num))),
      if_neg (not_le.mpr h)]
  · intro q h
    rw [fmtFixed, if_pos h]

/-- C4 witness: the million-threshold branch applied at 5,000,000. -/
theorem format_number_total_C4_witness :
    (1000000 : Rat) ≤ 5000000
    ∧ format_number 5000000 = "$" ++ fmtFixed ((5000000 : Rat) / 1000000) 2 ++ "M" :=
  ⟨by norm_num, format_number_total_C4.2.2.2.2.2.1 5000000 (by norm_num)⟩

/-- C5 (confirmed): when the supplied From-date exceeds the To-date the
sidebar shows the validation error, and the date mask is still applied
with the bounds exactly as given — yielding the records in the (here
empty) inclusive interval, with no swapping or clamping. -/
theorem invalid_date_range_C5 (df : List Record) (f t : Int) (h : t < f) :
    dateRangeWarning f t = true
    ∧ applyDateFilter f t df
        = df.filter (fun r => decide (f ≤ r.orderDate) && decide (r.orderDate ≤ t))
    ∧ applyDateFilter f t df = [] := by
  refine ⟨by simp [dateRangeWarning, h], rfl, ?_⟩
  refine List.filter_eq_nil_iff.mpr (fun r _ => ?_)
  simp only [Bool.and_eq_true, decide_eq_true_eq, not_and]
  intro h1 h2
  omega

/-- C5 witness: the theorem applied to a one-row frame with From-date 100
and To-date 0. -/
theorem invalid_date_range_C5_witness :
    (0 : Int) < 100
    ∧ dateRangeWarning 100 0 = true
    ∧ applyDateFilter 100 0 [rWest] = [] :=
  ⟨by norm_num, (invalid_date_range_C5 [rWest] 100 0 (by norm_num)).1,
    (invalid_date_range_C5 [rWest] 100 0 (by norm_num)).2.2⟩

/-- C6 (confirmed): with the "All" sentinel selected on all four
categorical dimensions and the default date range (the filtered frame's
own min and max order dates), the filter pipeline returns the Dataset
unchanged. -/
theorem all_sentinel_identity_C6 (df : List Record) :
    filterPipeline "All" "All" "All" "All"
      (minOrderDate df) (maxOrderDate df) df = df := by
  rw [filterPipeline_eq_filter]
  refine List.filter_eq_self.mpr (fun r hr => ?_)
  simp only [regionTest, stateTest, categoryTest, subcatTest, dateTest,
    beq_self_eq_true, Bool.true_or, Bool.true_and, Bool.and_eq_true,
    decide_eq_true_eq]
  exact ⟨minOrderDate_le df r hr, le_maxOrderDate df r hr⟩

/-- C7 (confirmed): the pipeline's final result is exactly the rows
satisfying the conjunction of the five selected predicates, and applying
the predicates in any other order gives the same result. -/
theorem filtered_result_is_conjunction_C7 (sr ss sc ssc : String)
    (f t : Int) (df : List Record) (ps : List (Record → Bool))
    (hperm : ps.Perm (pipelinePreds sr ss sc ssc f t)) :
    filterPipeline sr ss sc ssc f t df
      = df.filter (fun r =>
          regionTest sr r && (stateTest ss r && (categoryTest sc r &&
            (subcatTest ssc r && dateTest f t r))))
    ∧ applyPreds ps df = filterPipeline sr ss sc ssc f t df := by
  refine ⟨filterPipeline_eq_filter sr ss sc ssc f t df, ?_⟩
  rw [applyPreds_perm_eq hperm, filterPipeline_eq_applyPreds]

/-- C7 witness: the theorem applied to a two-row frame with the five
predicates applied in reverse order. -/
theorem filtered_result_is_conjunction_C7_witness :
    ((pipelinePreds "West" "California" "All" "All" 0 20000).reverse).Perm
        (pipelinePreds "West" "California" "All" "All" 0 20000)
    ∧ applyPreds ((pipelinePreds "West" "California" "All" "All" 0 20000).reverse)
          [rWest, rEast]
        = filterPipeline "West" "California" "All" "All" 0 20000 [rWest, rEast] :=
  ⟨List.reverse_perm _,
    (filtered_result_is_conjunction_C7 "West" "California" "All" "All" 0 20000
      [rWest, rEast] _ (List.reverse_perm _)).2⟩

/-- C8 (confirmed): the filter pipeline is idempotent — re-applying the
same selections to an already filtered Dataset leaves it unchanged. -/
theorem filter_idempotent_C8 (sr ss sc ssc : String) (f t : Int)
    (df : List Record) :
    filterPipeline sr ss sc ssc f t (filterPipeline sr ss sc ssc f t df)
      = filterPipeline sr ss sc ssc f t df := by
  simp only [filterPipeline_eq_filter, List.filter_filter]
  exact List.filter_congr (fun r _ => Bool.and_self _)

/-- C10 (confirmed): on a nonempty frame the Quantity KPI is always the
quantity sum divided by 1000, one decimal, with a literal `K` suffix
(app.py line 169) — `format_number`'s currency K/M thresholding is never
applied to it: a quantity sum of 5 renders as "0.0K" (not "$5.00"), and a
quantity sum of 2,500,000 renders as "2500.0K" (not "$2.50M"). -/
theorem quantity_kpi_always_K_C10 (df : List Record) (h : df.isEmpty = false) :
    total_quantity df = fmtFixed (sumBy Record.quantity df / 1000) 1 ++ "K"
    ∧ (sumBy Record.quantity df = 5 →
        total_quantity df = "0.0K"
        ∧ total_quantity df ≠ format_number (sumBy Record.quantity df))
    ∧ (sumBy Record.quantity df = 2500000 →
        total_quantity df = "2500.0K"
        ∧ total_quantity df ≠ format_number (sumBy Record.quantity df)) := by
  have h1 : total_quantity df = fmtFixed (sumBy Record.quantity df / 1000) 1 ++ "K" := by
    simp [total_quantity, h]
  refine ⟨h1, fun hq => ?_, fun hq => ?_⟩
  · rw [h1, hq]
    exact ⟨by decide, by decide⟩
  · rw [h1, hq]
    exact ⟨by decide, by decide⟩

/-- C10 witness: the theorem applied to the one-row frame `[rQty5]`, whose
quantity sum is 5. -/
theorem quantity_kpi_always_K_C10_witness :
    ([rQty5] : List Record).isEmpty = false
    ∧ sumBy Record.quantity [rQty5] = 5
    ∧ total_quantity [rQty5] = "0.0K"
    ∧ total_quantity [rQty5] ≠ format_number (sumBy Record.quantity [rQty5]) :=
  ⟨rfl, by decide,
    ((quantity_kpi_always_K_C10 [rQty5] rfl).2.1 (by decide)).1,
    ((quantity_kpi_always_K_C10 [rQty5] rfl).2.1 (by decide)).2⟩

end ConcreteEvaluation
